import Mathlib

set_option maxHeartbeats 1000000

/-
Shallow embedding of the core of cmbant/sacc (src/sacc2/covariance.py and
src/sacc2/sacc.py): the three covariance representations, their masking,
block extraction and FITS serialization entry points, and the Sacc data-set
container with its reorder / cut / indices / add_data_point operations.

Modelling conventions:
- Matrices are row-major lists of rows with integer entries.  None of the
  embedded indexing, masking, splitting or selection logic computes with
  the scalar entries, so an integer scalar type keeps everything decidable
  while remaining faithful to the index bookkeeping of the source.
- Python exceptions are modelled with Except String (the message recalls
  the Python exception class).  Where a source method mutates the object
  and then raises, the model returns the post-mutation state together with
  an optional error, mirroring in-place mutation followed by propagation.
- numpy integer indexing of lists/arrays is modelled with getD defaults;
  every theorem quantifying over matrices carries in-range/shape
  hypotheses so that the defaults are never what is actually exercised.
-/

deriving instance DecidableEq for Except

namespace Sacc2

/-- Matrices are modelled row-major as lists of rows with integer entries. -/
abbrev Mat := List (List Int)

/-- Entry i j of a matrix (0 out of range; theorems restrict to in-range). -/
def matEntry (C : Mat) (i j : Nat) : Int := (C.getD i []).getD j 0

/-- Positions of the True entries of a boolean mask, in order: the rows and
columns that numpy boolean fancy indexing selects. -/
def trueIndices (m : List Bool) : List Nat :=
  (List.range m.length).filter (fun i => m.getD i false)

/-- numpy fancy indexing C[idx][:,idx] with an integer index list. -/
def iselect (C : Mat) (idx : List Nat) : Mat :=
  idx.map (fun i => idx.map (fun j => matEntry C i j))

/-- numpy boolean indexing C[m][:,m]. -/
def bselect (C : Mat) (m : List Bool) : Mat := iselect C (trueIndices m)

/-- numpy boolean indexing of a vector, d[m]. -/
def vselectBool (d : List Int) (m : List Bool) : List Int :=
  (trueIndices m).map (fun i => d.getD i 0)

/-- numpy fancy indexing of a vector, d[idx]. -/
def vselectIdx (d : List Int) (idx : List Nat) : List Int :=
  idx.map (fun i => d.getD i 0)

/-- The three covariance representations of covariance.py: FullCovariance
stores covmat, BlockDiagonalCovariance stores the list of square blocks
(block sizes are the row counts, as in the constructor), DiagonalCovariance
stores the vector of variances. -/
inductive Covariance
  | full (covmat : Mat)
  | block (blocks : List Mat)
  | diagonal (diag : List Int)
deriving DecidableEq

/-- Total size N of a covariance: covmat row count for full, sum of block
row counts (total_size in the constructor) for block, vector length for
diagonal. -/
def Covariance.size : Covariance → Nat
  | .full C => C.length
  | .block bs => (bs.map List.length).sum
  | .diagonal d => d.length

/-- A selector passed to Covariance.masked is either a boolean numpy mask
or a sequence of integer indices (sacc.py passes a boolean array from cut
and the caller-supplied index sequence from reorder). -/
inductive Selector
  | bools (m : List Bool)
  | ints (idx : List Nat)

/-- np.split of the mask at the cumulative block boundaries
(np.cumsum(block_sizes) without its last element): one sub-mask per block,
the last one taking the whole remainder of the mask. -/
def npSplitAt : List Nat → List Bool → List (List Bool)
  | [], m => [m]
  | [_], m => [m]
  | s :: rest, m => m.take s :: npSplitAt rest (m.drop s)

/-- Test that consecutive differences are all positive: the source guard
(np.diff(mask) greater than 0).all(), vacuously true for length below 2. -/
def strictlyIncr : List Nat → Bool
  | a :: b :: t => decide (a < b) && strictlyIncr (b :: t)
  | _ => true

/-- One step of the boolean branch of BlockDiagonalCovariance.masked.  The
source evaluates self.blocks[m][:,m] where self.blocks is a Python list
and m a boolean sub-mask array: a boolean ndarray of size other than 1 is
not a valid list index (TypeError); a size-1 ndarray converts (deprecated
numpy behaviour) to the integer 0 or 1, after which the column selection
B[:,m] needs axis 1 of B to have length 1 (else IndexError). -/
def blocksIndexBool (blocks : List Mat) (m : List Bool) : Except String Mat :=
  match m with
  | [b] =>
    match blocks.get? (if b then 1 else 0) with
    | none => Except.error "IndexError: list index out of range"
    | some B =>
      if B.all (fun r => r.length = 1) then
        Except.ok (B.map (fun r => if b then r else []))
      else Except.error "IndexError: boolean index did not match array shape"
  | _ => Except.error "TypeError: only integer scalar arrays can be converted to a scalar index"

/-- Boolean branch of BlockDiagonalCovariance.masked: split the mask at the
cumulative block boundaries, then run the per-sub-mask list comprehension
self.blocks[m][:,m] (which is where the source goes wrong, see
blocksIndexBool), rebuilding a block-diagonal covariance on success. -/
def maskedBlockBool (bs : List Mat) (m : List Bool) : Except String Covariance :=
  match (npSplitAt (bs.map List.length) m).mapM (blocksIndexBool bs) with
  | .ok newBlocks => .ok (.block newBlocks)
  | .error e => .error e

/-- Integer branch of BlockDiagonalCovariance.masked.  When the index
sequence is strictly increasing the source loop body reads the undefined
name block (it should have been the loop variable b), so the call raises
NameError.  Otherwise the densify branch calls scipy.linalg.block_diag
with the list of blocks as one argument instead of unpacking it; atleast_2d
of that list has more than two dimensions (or is ragged), so block_diag
raises ValueError.  With a plain Python list argument the method fails even
earlier on mask.dtype (AttributeError); every path raises. -/
def maskedBlockInts (_bs : List Mat) (idx : List Nat) : Except String Covariance :=
  if strictlyIncr idx then
    Except.error "NameError: name block is not defined"
  else
    Except.error "ValueError: block_diag arguments have dimension greater than 2"

/-- Covariance.masked for the three representations: full and diagonal
subset their storage directly; the block-diagonal branches are modelled in
maskedBlockBool / maskedBlockInts. -/
def Covariance.masked : Covariance → Selector → Except String Covariance
  | .full C, .bools m => .ok (.full (bselect C m))
  | .full C, .ints idx => .ok (.full (iselect C idx))
  | .diagonal d, .bools m => .ok (.diagonal (vselectBool d m))
  | .diagonal d, .ints idx => .ok (.diagonal (vselectIdx d idx))
  | .block bs, .bools m => maskedBlockBool bs m
  | .block bs, .ints idx => maskedBlockInts bs idx

/-- Covariance.get_block.  FullCovariance returns covmat[indices][:,indices].
BlockDiagonalCovariance: the loop body reads the undefined name block, so
any non-empty block list raises NameError (with no blocks the loop does not
run and scipy.linalg.block_diag of the empty sub-block list yields a (1,0)
array).  DiagonalCovariance applies np.diagonal to the one-dimensional array
self.diag[indices]; np.diagonal extracts a diagonal and needs at least two
dimensions, so it raises ValueError (np.diag, which builds a matrix from a
vector, was presumably intended). -/
def Covariance.get_block : Covariance → List Nat → Except String Mat
  | .full C, idx => .ok (iselect C idx)
  | .block [], _ => .ok [[]]
  | .block (_ :: _), _ => .error "NameError: name block is not defined"
  | .diagonal _, _ => .error "ValueError: diag requires an array of at least two dimensions"

/-- Payload of a covariance HDU: a two-dimensional image for FullCovariance,
a flat float vector for the block and diagonal layouts. -/
inductive HduData
  | image (m : Mat)
  | flat (v : List Int)
deriving DecidableEq

/-- The covariance HDU as the serialization model: the saccclss header tag
naming the representation, the data payload, and the size headers. -/
structure CovHDU where
  saccclss : String
  data : HduData
  sizeHdr : Option Nat
  blockSizes : Option (List Nat)
deriving DecidableEq

/-- Covariance.to_fits.  FullCovariance writes the matrix as an image HDU
with its class tag and size header.  BlockDiagonalCovariance.to_fits reads
self.covmat.shape and len(self.block), and a BlockDiagonalCovariance has
neither a covmat nor a block attribute, so the call raises AttributeError
before any HDU is produced.  DiagonalCovariance writes the variance column. -/
def Covariance.to_fits : Covariance → Except String CovHDU
  | .full C => .ok ⟨"full", .image C, some C.length, none⟩
  | .block _ => .error "AttributeError: BlockDiagonalCovariance object has no attribute covmat"
  | .diagonal d => .ok ⟨"diagonal", .flat d, none, none⟩

/-- BaseCovariance.from_fits, the dispatcher sacc.py load uses for every
covariance HDU: after reading the header it evaluates
self._covariance_classes[subcls], and neither self nor subcls is defined
inside the classmethod, so the call always raises NameError. -/
def baseCovarianceFromFits (_hdu : CovHDU) : Except String Covariance :=
  .error "NameError: name self is not defined"

/-- Serialize-then-deserialize through the FITS entry points: to_fits on
the covariance followed by the BaseCovariance.from_fits dispatcher. -/
def covRoundTrip (c : Covariance) : Except String Covariance :=
  c.to_fits.bind baseCovarianceFromFits

/-- A DataPoint of sacc.py: data type, tracer tuple (stored as a tuple),
scalar value and ordered tag mapping.  Scalar values and tag values are
modelled as integers. -/
structure DataPoint where
  data_type : String
  tracers : List String
  value : Int
  tags : List (String × Int)
deriving DecidableEq

instance : Inhabited DataPoint := ⟨⟨"", [], 0, []⟩⟩

/-- DataPoint.get_tag: self.tags.get(tag), i.e. None when absent. -/
def DataPoint.get_tag (d : DataPoint) (t : String) : Option Int :=
  (d.tags.find? (fun p => p.1 = t)).map Prod.snd

/-- A caller-supplied sequence of tracer names: Python list or tuple. -/
inductive PySeq
  | list (xs : List String)
  | tuple (xs : List String)

/-- The tuple(tracers) conversion applied both by add_data_point and by
indices before comparing. -/
def PySeq.toTuple : PySeq → List String
  | .list xs => xs
  | .tuple xs => xs

/-- The Sacc data set: ordered data point list, registered tracer names
(the keys of the tracers dictionary) and the optional covariance. -/
structure Sacc where
  data : List DataPoint
  tracers : List String
  covariance : Option Covariance
deriving DecidableEq

/-- Sacc.reorder: reassigns self.data to [self.data[i] for i in indices]
and then, when a covariance is present, self.covariance to
self.covariance.masked(indices).  When masked raises, the data list has
already been replaced, so the returned state keeps the new data and the old
covariance, with the propagated error alongside. -/
def Sacc.reorder (s : Sacc) (indices : List Nat) : Sacc × Option String :=
  let newData := indices.map (fun i => s.data.getD i default)
  match s.covariance with
  | none => (⟨newData, s.tracers, none⟩, none)
  | some c =>
    match c.masked (.ints indices) with
    | .ok c2 => (⟨newData, s.tracers, some c2⟩, none)
    | .error e => (⟨newData, s.tracers, some c⟩, some e)

/-- The argument of Sacc.cut after np.array(mask), classified by dtype:
boolean mask, integer index list, or any other dtype (float, string,
object...), which the source rejects. -/
inductive CutMask
  | bools (m : List Bool)
  | ints (idx : List Int)
  | invalid

/-- numpy integer indexing with wraparound for negative indices, as used by
m[i] = True in the integer-mask expansion loop of Sacc.cut. -/
def pyIndex (n : Nat) (i : Int) : Option Nat :=
  if 0 ≤ i then (if i < n then some i.toNat else none)
  else (if -i ≤ (n : Int) then some (n - (-i).toNat) else none)

/-- Expansion of an integer mask into a boolean mask of length n:
m = np.zeros(n, bool); for i in mask: m[i] = True, raising IndexError on an
out-of-range index. -/
def expandIntMask (n : Nat) (idx : List Int) : Except String (List Bool) :=
  idx.foldlM
    (fun m i =>
      match pyIndex n i with
      | some j => .ok (m.set j true)
      | none => .error "IndexError: index out of bounds")
    (List.replicate n false)

/-- Body of Sacc.cut once a boolean mask is in hand: the length check
(raised before any mutation), then the in-place record filtering keeping
points where the mask is False, then covariance.masked with the complement
mask; a failure inside masked leaves the already-filtered data with the
stale covariance. -/
def Sacc.cutBool (s : Sacc) (m : List Bool) : Sacc × Option String :=
  if m.length = s.data.length then
    let newData := ((s.data.zip m).filter (fun p => ! p.2)).map Prod.fst
    match s.covariance with
    | none => (⟨newData, s.tracers, none⟩, none)
    | some c =>
      match c.masked (.bools (m.map not)) with
      | .ok c2 => (⟨newData, s.tracers, some c2⟩, none)
      | .error e => (⟨newData, s.tracers, some c⟩, some e)
  else (s, some "Mask passed in is wrong size")

/-- Sacc.cut: a non-boolean, non-integer dtype raises ValueError (Wrong
mask type) before anything else; an integer mask is first expanded into a
boolean mask of the current length (IndexError leaves the state untouched);
then the boolean path runs. -/
def Sacc.cut (s : Sacc) (mask : CutMask) : Sacc × Option String :=
  match mask with
  | .invalid => (s, some "Wrong mask type")
  | .ints idx =>
    match expandIntMask s.data.length idx with
    | .ok m => s.cutBool m
    | .error e => (s, some e)
  | .bools m => s.cutBool m

/-- Python str.endswith on code points. -/
def pyEndsWith (s suf : String) : Bool :=
  decide (suf.data = s.data.drop (s.data.length - suf.data.length))

/-- Python slicing s[:-n] on code points. -/
def pyDropRight (s : String) (n : Nat) : String :=
  ⟨s.data.take (s.data.length - n)⟩

/-- One tag predicate of Sacc.indices, keyed by the raw kwargs name: a
name ending in __lt compares get_tag(stripped name) with the threshold
(Python raises TypeError when the tag is absent, because None does not
support order comparison with a number), likewise __gt; any other name is
an equality test, where a missing tag compares unequal without error. -/
def checkPred (d : DataPoint) (name : String) (v : Int) : Except String Bool :=
  if pyEndsWith name "__lt" then
    match d.get_tag (pyDropRight name 4) with
    | none => .error "TypeError: unorderable None comparison"
    | some x => .ok (decide (x < v))
  else if pyEndsWith name "__gt" then
    match d.get_tag (pyDropRight name 4) with
    | none => .error "TypeError: unorderable None comparison"
    | some x => .ok (decide (x > v))
  else .ok (decide (d.get_tag name = some v))

/-- The inner loop over select.items(): stops at the first predicate that
fails (ok = False) and propagates the first raised comparison error. -/
def scanPreds (d : DataPoint) : List (String × Int) → Except String Bool
  | [] => .ok true
  | (n, v) :: rest => do
    let b ← checkPred d n v
    if b then scanPreds d rest else pure false

/-- The tracer-combination and data-type filters at the top of the record
loop of Sacc.indices (tracer check first, then data type, as in the
source). -/
def matchesPoint (d : DataPoint) (dt : Option String) (tr : Option (List String)) : Bool :=
  (match tr with | none => true | some t => decide (d.tracers = t)) &&
  (match dt with | none => true | some t => decide (d.data_type = t))

/-- The enumerated record scan of Sacc.indices, collecting the indices of
matching points in insertion order. -/
def indicesAux (dt : Option String) (tr : Option (List String))
    (select : List (String × Int)) : List (Nat × DataPoint) → Except String (List Nat)
  | [] => .ok []
  | (i, d) :: rest =>
    if matchesPoint d dt tr then do
      let ok ← scanPreds d select
      let r ← indicesAux dt tr select rest
      pure (if ok then i :: r else r)
    else indicesAux dt tr select rest

/-- Sacc.indices: converts the tracers filter with tuple(tracers), then
scans the enumerated data points. -/
def Sacc.indices (s : Sacc) (dt : Option String) (tracers : Option PySeq)
    (select : List (String × Int)) : Except String (List Nat) :=
  indicesAux dt (tracers.map PySeq.toTuple) select s.data.enum

/-- Sacc.add_data_point: refuses once a covariance is set, converts the
tracer sequence with tuple(tracers), requires each tracer to be registered
unless tracers_later, then appends the new DataPoint. -/
def Sacc.add_data_point (s : Sacc) (data_type : String) (tracers : PySeq)
    (value : Int) (tracers_later : Bool) (tags : List (String × Int)) :
    Except String Sacc :=
  if s.covariance.isSome then
    .error "You cannot add a data point after setting the covariance"
  else
    let tr := tracers.toTuple
    if !tracers_later && tr.any (fun t => !s.tracers.contains t) then
      .error "Tracer is not in the known list of tracers"
    else
      .ok ⟨s.data ++ [⟨data_type, tr, value, tags⟩], s.tracers, none⟩

/-- C1: the claim states that after reorder or cut the record count equals
the covariance size for all three representations.  For the BlockDiagonal
representation the boolean branch of masked indexes the Python list of
blocks with a boolean array and raises TypeError after the record list has
already been filtered, so a two-record set with one 2x2 block ends the cut
with one record but a size-2 covariance: the invariant is broken. -/
theorem c1_block_cut_breaks_size_invariant :
    Sacc.cut ⟨[⟨"shear_ee", [], 10, []⟩, ⟨"shear_ee", [], 20, []⟩], [],
        some (.block [[[1, 0], [0, 1]]])⟩ (.bools [true, false]) =
      (⟨[⟨"shear_ee", [], 20, []⟩], [], some (.block [[[1, 0], [0, 1]]])⟩,
        some "TypeError: only integer scalar arrays can be converted to a scalar index") ∧
    [(⟨"shear_ee", [], 20, []⟩ : DataPoint)].length ≠
      (Covariance.block [[[1, 0], [0, 1]]]).size :=
  ⟨by decide, by decide⟩

/-- C2 counterexample: cut treats True as removing a record, so
cut([False, True, False]) on a three-record Dense set keeps records 0 and
2, yielding a two-record set with the rows/columns 0 and 2 of the original
covariance, not the one-record set the claim promises. -/
theorem c2_cut_false_true_false_keeps_two_records :
    Sacc.cut ⟨[⟨"a", [], 10, []⟩, ⟨"b", [], 20, []⟩, ⟨"c", [], 30, []⟩], [],
        some (.full [[1, 2, 3], [4, 5, 6], [7, 8, 9]])⟩ (.bools [false, true, false]) =
      (⟨[⟨"a", [], 10, []⟩, ⟨"c", [], 30, []⟩], [], some (.full [[1, 3], [7, 9]])⟩, none) ∧
    (Sacc.cut ⟨[⟨"a", [], 10, []⟩, ⟨"b", [], 20, []⟩, ⟨"c", [], 30, []⟩], [],
        some (.full [[1, 2, 3], [4, 5, 6], [7, 8, 9]])⟩
        (.bools [false, true, false])).1.data.length ≠ 1 :=
  ⟨by decide, by decide⟩

/-- C2 amended: in cut a True mask entry marks the record to remove, so on
any three-record set with a 3x3 dense covariance the call
cut([True, False, True]) yields the one-record set keeping record 1, whose
single covariance entry is element 1 1 of the original matrix. -/
theorem c2_cut_true_false_true_single_record (d0 d1 d2 : DataPoint) (C : Mat)
    (tr : List String) (_hC : C.length = 3) (_hrows : ∀ r ∈ C, r.length = 3) :
    Sacc.cut ⟨[d0, d1, d2], tr, some (.full C)⟩ (.bools [true, false, true]) =
      (⟨[d1], tr, some (.full [[matEntry C 1 1]])⟩, none) := by
  rfl

/-- C2 witness: the amended theorem applied to a concrete three-record set
with the dense covariance [[1,2,3],[4,5,6],[7,8,9]]. -/
theorem c2_cut_witness :
    ([[1, 2, 3], [4, 5, 6], [7, 8, 9]] : Mat).length = 3 ∧
    Sacc.cut ⟨[⟨"a", [], 10, []⟩, ⟨"b", [], 20, []⟩, ⟨"c", [], 30, []⟩], [],
        some (.full [[1, 2, 3], [4, 5, 6], [7, 8, 9]])⟩ (.bools [true, false, true]) =
      (⟨[⟨"b", [], 20, []⟩], [], some (.full [[5]])⟩, none) :=
  ⟨by decide,
    c2_cut_true_false_true_single_record _ _ _ _ _ (by decide) (by decide)⟩

/-- C3: the claim states that a non-increasing integer selector on a
BlockDiagonal covariance densifies and returns the permuted dense matrix.
The densify branch calls scipy.linalg.block_diag with the list of blocks
as a single argument instead of unpacking it, which raises ValueError, so
on blocks [[1]], [[2]] with selector [1, 0] the code raises instead of
returning the dense matrix [[2, 0], [0, 1]]. -/
theorem c3_block_permutation_densify_raises :
    Covariance.masked (.block [[[1]], [[2]]]) (.ints [1, 0]) =
      .error "ValueError: block_diag arguments have dimension greater than 2" :=
  by decide

/-- C4: the claim states that a boolean mask on a BlockDiagonal covariance
splits at block boundaries and restricts each block by its sub-mask.  The
comprehension indexes the Python list self.blocks with the boolean
sub-mask instead of indexing the block, so on a single 2x2 block with mask
[True, False] the code raises TypeError instead of returning the
BlockDiagonal covariance with block [[1]]. -/
theorem c4_block_bool_mask_raises :
    Covariance.masked (.block [[[1, 0], [0, 1]]]) (.bools [true, false]) =
      .error "TypeError: only integer scalar arrays can be converted to a scalar index" :=
  by decide

/-- C5: the claim states that reorder with the identity permutation is a
no-op on records and covariance for each representation.  It holds for the
Dense and DiagonalOnly representations, but for BlockDiagonal the
strictly-increasing branch of masked reads the undefined name block, so
the identity reorder raises NameError (the record list and covariance
happen to keep their values, but the call does not complete normally). -/
theorem c5_identity_reorder :
    Sacc.reorder ⟨[⟨"a", [], 1, []⟩, ⟨"b", [], 2, []⟩], [],
        some (.full [[1, 2], [2, 5]])⟩ [0, 1] =
      (⟨[⟨"a", [], 1, []⟩, ⟨"b", [], 2, []⟩], [], some (.full [[1, 2], [2, 5]])⟩, none) ∧
    Sacc.reorder ⟨[⟨"a", [], 1, []⟩, ⟨"b", [], 2, []⟩], [], some (.diagonal [3, 4])⟩ [0, 1] =
      (⟨[⟨"a", [], 1, []⟩, ⟨"b", [], 2, []⟩], [], some (.diagonal [3, 4])⟩, none) ∧
    Sacc.reorder ⟨[⟨"a", [], 1, []⟩, ⟨"b", [], 2, []⟩], [], some (.block [[[1]], [[4]]])⟩ [0, 1] =
      (⟨[⟨"a", [], 1, []⟩, ⟨"b", [], 2, []⟩], [], some (.block [[[1]], [[4]]])⟩,
        some "NameError: name block is not defined") :=
  ⟨by decide, by decide, by decide⟩

/-- C6 counterexample: on a one-record data set whose record has no tags,
a selection with the inequality predicate ell__lt raises TypeError (None
compared with a number) instead of completing normally with the record
omitted. -/
theorem c6_missing_tag_inequality_raises :
    Sacc.indices ⟨[⟨"shear_ee", [], 1, []⟩], [], none⟩ none none [("ell__lt", 5)] =
      .error "TypeError: unorderable None comparison" ∧
    Sacc.indices ⟨[⟨"shear_ee", [], 1, []⟩], [], none⟩ none none [("ell__lt", 5)] ≠
      .ok [] :=
  ⟨by decide, by decide⟩

/-- C6 amended: when a record reached by the scan lacks the tag referenced
by an inequality predicate, the indices operation raises a TypeError (the
tag lookup yields None, which does not support order comparison with the
threshold) instead of treating the record as a non-match. -/
theorem c6_missing_tag_inequality_errors (d : DataPoint) (tr : List String)
    (cov : Option Covariance) (name : String) (v : Int)
    (hlt : pyEndsWith name "__lt" = true)
    (hmiss : d.get_tag (pyDropRight name 4) = none) :
    Sacc.indices ⟨[d], tr, cov⟩ none none [(name, v)] =
      .error "TypeError: unorderable None comparison" := by
  simp only [Sacc.indices, indicesAux, matchesPoint, scanPreds, checkPred, hlt, hmiss,
    List.enum, if_true]
  rfl

/-- C6 witness: the amended theorem applied to a concrete tagless record
and the predicate name ell__lt. -/
theorem c6_missing_tag_witness :
    pyEndsWith "ell__lt" "__lt" = true ∧
    Sacc.indices ⟨[⟨"shear_xi_plus", [], 1, []⟩], [], none⟩ none none [("ell__lt", 5)] =
      .error "TypeError: unorderable None comparison" :=
  ⟨by decide,
    c6_missing_tag_inequality_errors _ _ _ _ _ (by decide) (by decide)⟩

/-- C7: the claim states that block for a single in-range index returns the
1x1 scalar variance for every representation.  FullCovariance does return
it; DiagonalCovariance applies np.diagonal to a one-dimensional array and
raises ValueError; BlockDiagonalCovariance reads the undefined name block
in its loop and raises NameError. -/
theorem c7_single_index_get_block :
    Covariance.get_block (.full [[4, 7], [7, 9]]) [1] = .ok [[9]] ∧
    Covariance.get_block (.diagonal [4, 9]) [1] =
      .error "ValueError: diag requires an array of at least two dimensions" ∧
    Covariance.get_block (.block [[[4]], [[9]]]) [1] =
      .error "NameError: name block is not defined" :=
  ⟨by decide, by decide, by decide⟩

/-- C8: the claim states that deserialize after serialize reconstructs an
equal covariance for each representation.  The round trip through the FITS
entry points fails for every covariance: BlockDiagonalCovariance.to_fits
reads the non-existent attributes covmat and block (AttributeError), and
for the other two representations the BaseCovariance.from_fits dispatcher
evaluates the undefined names self and subcls (NameError). -/
theorem c8_roundtrip_always_fails (c : Covariance) :
    ∃ e, covRoundTrip c = .error e := by
  cases c <;> exact ⟨_, rfl⟩

/-- C8 witness: the round-trip failure at the concrete one-element dense
covariance. -/
theorem c8_roundtrip_witness : ∃ e, covRoundTrip (.full [[2]]) = .error e :=
  c8_roundtrip_always_fails (.full [[2]])

/-- C9: cut raises the wrong-size error when a boolean mask length differs
from the record count and the wrong-mask-type error for a mask of
unsupported element type, and in both cases the data set (records and
covariance) is returned unchanged, because both checks run before any
mutation. -/
theorem c9_cut_error_cases (s : Sacc) (m : List Bool)
    (h : ¬ m.length = s.data.length) :
    Sacc.cut s (.bools m) = (s, some "Mask passed in is wrong size") ∧
    Sacc.cut s .invalid = (s, some "Wrong mask type") := by
  constructor
  · simp [Sacc.cut, Sacc.cutBool, h]
  · rfl

/-- C9 witness: the error cases applied to the empty data set and a
length-one boolean mask. -/
theorem c9_cut_error_witness :
    ¬ ([true].length = (⟨[], [], none⟩ : Sacc).data.length) ∧
    Sacc.cut ⟨[], [], none⟩ (.bools [true]) =
      (⟨[], [], none⟩, some "Mask passed in is wrong size") ∧
    Sacc.cut ⟨[], [], none⟩ .invalid = (⟨[], [], none⟩, some "Wrong mask type") :=
  ⟨by decide, c9_cut_error_cases _ _ (by decide)⟩

/-- C10: both add_data_point and indices convert the caller-supplied
tracer sequence with tuple(tracers) before storing or comparing, so a
selection by tracer combination matches identically whether the filter or
the stored combination was given as a list or as a tuple. -/
theorem c10_tuple_list_equivalence (s : Sacc) (dt : Option String)
    (xs : List String) (sel : List (String × Int)) (data_type : String)
    (v : Int) (tl : Bool) (tags : List (String × Int)) :
    s.indices dt (some (.list xs)) sel = s.indices dt (some (.tuple xs)) sel ∧
    s.add_data_point data_type (.list xs) v tl tags =
      s.add_data_point data_type (.tuple xs) v tl tags :=
  ⟨rfl, rfl⟩

/-- C10 witness: the equivalence applied at a concrete data set, tracer
pair and selection. -/
theorem c10_tuple_list_witness :
    Sacc.indices ⟨[⟨"shear_ee", ["A", "B"], 1, []⟩], ["A", "B"], none⟩
        (some "shear_ee") (some (.list ["A", "B"])) [] =
      Sacc.indices ⟨[⟨"shear_ee", ["A", "B"], 1, []⟩], ["A", "B"], none⟩
        (some "shear_ee") (some (.tuple ["A", "B"])) [] ∧
    Sacc.add_data_point ⟨[⟨"shear_ee", ["A", "B"], 1, []⟩], ["A", "B"], none⟩
        "shear_ee" (.list ["A", "B"]) 1 false [] =
      Sacc.add_data_point ⟨[⟨"shear_ee", ["A", "B"], 1, []⟩], ["A", "B"], none⟩
        "shear_ee" (.tuple ["A", "B"]) 1 false [] :=
  c10_tuple_list_equivalence ⟨[⟨"shear_ee", ["A", "B"], 1, []⟩], ["A", "B"], none⟩
    (some "shear_ee") ["A", "B"] [] "shear_ee" 1 false []

end Sacc2
